import Mathlib

/-!
Verification of the filter-expression compiler of the ArmoniK CLI
(`src/armonik_cli/core/filters.py`, grammar skeleton in `larkfilter.py`).

The Python code is shallowly embedded: the schema walk (`FilterParser.get_fields`,
`get_status`), the LALR grammar generated per resource type, the Lark parse of a
token stream into a tree, and the bottom-up `FilterTransformer` reduction into a
predicate value are all rendered as executable Lean functions.  Python
exceptions are rendered as an explicit error type carried by `Except`.
-/

namespace ArmonikFilters

/-- Field kinds of `armonik.common.filter.filter.FType` as consumed by
`FilterParser.get_fields` (filters.py lines 61-80); `array`, `na` and `unknown`
fall into the `else: continue` branch there. -/
inductive FType
  | str
  | bool
  | num
  | date
  | duration
  | status
  | array
  | na
  | unknown
  deriving DecidableEq, Repr, Fintype

/-- A resource's `filter._fields` mapping: field name to field kind, in
registration order (the second tuple component of the Python `_fields` values
is not consulted by the compiler and is omitted). -/
abbrev Schema := List (String × FType)

/-- `FilterParser.get_fields` (filters.py lines 50-82): the filterable fields
with their comparator class and literal terminal; kinds with no grammar mapping
are skipped by the final `continue`. -/
def getFields : Schema → List (String × String × String)
  | [] => []
  | (fieldName, spec) :: rest =>
    match spec with
    | .str => (fieldName, "string_comp", "STRING") :: getFields rest
    | .bool => (fieldName, "bool_comp", "BOOL") :: getFields rest
    | .num => (fieldName, "generic_comp", "SIGNED_INT") :: getFields rest
    | .date => (fieldName, "generic_comp", "DATETIME") :: getFields rest
    | .duration => (fieldName, "generic_comp", "DURATION") :: getFields rest
    | .status => (fieldName, "status_comp", "STATUS") :: getFields rest
    | _ => getFields rest

/-- Lowercase a string character by character (Python `str.lower` on the ASCII
identifiers involved here). -/
def lowerStr (s : String) : String := String.mk (s.toList.map Char.toLower)

/-- Uppercase a string character by character (Python `str.upper`, as used by
`FilterTransformer.STATUS` on status tokens). -/
def upperStr (s : String) : String := String.mk (s.toList.map Char.toUpper)

/-- `FilterParser.get_status` (filters.py lines 84-91): the status enumeration's
member names, lowercased. -/
def getStatus (members : List String) : List String := members.map lowerStr

/-- The Python exceptions that the compilation pipeline can raise, plus the
spec's `InvalidLiteral(kind, raw)` taxonomy element so that the spec's error
contract can be stated (the code itself never constructs such an error). -/
inductive FilterError
  | unexpectedInput
  | unknownField (name : String)
  | invalidLiteral (kind raw : String)
  | notImplementedError
  | valueError (raw : String)
  | attributeError (name : String)
  deriving DecidableEq, Repr

/-- Comparison semantics of the predicate algebra (`operator.eq` ... and the
`StringFilter` capabilities used by the transformer). -/
inductive CompOp
  | eq
  | ne
  | lt
  | le
  | gt
  | ge
  | contains
  | startswith
  | endswith
  deriving DecidableEq, Repr

/-- Typed literal values produced by the transformer's token callbacks. -/
inductive Value
  | vStr (s : String)
  | vBool (b : Bool)
  | vInt (n : Int)
  | vDuration (ms : Int)
  | vStatus (member : String)
  deriving DecidableEq, Repr

/-- The predicate tree built by the transformer: leaf comparisons of one field
against one typed value, combined with the predicate algebra's AND, OR and
negation. -/
inductive Pred
  | comp (field : String) (op : CompOp) (v : Value)
  | and (p q : Pred)
  | or (p q : Pred)
  | not (p : Pred)
  deriving DecidableEq, Repr

/-- The comparator-token callbacks `EQ` ... `ENDSWIDTH` of `FilterTransformer`
(filters.py lines 241-295) each return an operator; this type tags which one. -/
inductive OpK
  | eqK
  | neK
  | ltK
  | leK
  | gtK
  | geK
  | inK
  | notInK
  | startsK
  | endsK
  deriving DecidableEq, Repr

/-- Map a comparator token's text to the transformer callback it triggers. -/
def opOfTok (t : String) : Option OpK :=
  if t = "=" then some .eqK
  else if t = "!=" then some .neK
  else if t = "<" then some .ltK
  else if t = "<=" then some .leK
  else if t = ">" then some .gtK
  else if t = ">=" then some .geK
  else if t = "contains" then some .inK
  else if t = "notcontains" then some .notInK
  else if t = "startswith" then some .startsK
  else if t = "endswith" then some .endsK
  else none

/-- `FilterTransformer.field` (filters.py lines 297-308): apply the operator
returned by the comparator callback to the field accessor and the typed value.
`NOTIN` builds `- a.contains(b)`, the negation of the containment predicate
(filters.py lines 273-279). -/
def applyOp (k : OpK) (fieldName : String) (v : Value) : Pred :=
  match k with
  | .eqK => .comp fieldName .eq v
  | .neK => .comp fieldName .ne v
  | .ltK => .comp fieldName .lt v
  | .leK => .comp fieldName .le v
  | .gtK => .comp fieldName .gt v
  | .geK => .comp fieldName .ge v
  | .inK => .comp fieldName .contains v
  | .notInK => .not (.comp fieldName .contains v)
  | .startsK => .comp fieldName .startswith v
  | .endsK => .comp fieldName .endswith v

/-- Modelled from the spec: the comparator set each comparator class of
`get_fields` expands to in the generated grammar.  The class names
(`string_comp`, `bool_comp`, `generic_comp`, `status_comp`) come from
`FilterParser.get_fields` in the source; their expansions follow the table in
spec section 4.2 because the repository does not contain the referenced grammar
template `filter_grammar.jinja`. -/
def compAllows (comp opTok : String) : Bool :=
  if comp = "string_comp" then
    ["=", "!=", "contains", "notcontains", "startswith", "endswith"].contains opTok
  else if comp = "bool_comp" then ["=", "!="].contains opTok
  else if comp = "generic_comp" then ["=", "!=", "<", "<=", ">", ">="].contains opTok
  else if comp = "status_comp" then ["=", "!="].contains opTok
  else false

/-- Consume exactly `n` decimal digits. -/
def digitsN : Nat → List Char → Option (List Char)
  | 0, cs => some cs
  | _ + 1, [] => none
  | n + 1, c :: cs => if c.isDigit then digitsN n cs else none

/-- Consume one expected character. -/
def expectC (c : Char) : List Char → Option (List Char)
  | [] => none
  | c2 :: cs => if c2 = c then some cs else none

/-- The `DATETIME` terminal's pattern (larkfilter.py line 40): an ISO-8601
datetime `dddd-dd-ddTdd:dd:dd` followed by `Z` or a `+hh:mm`/`-hh:mm` offset. -/
def matchesDatetime (s : String) : Bool :=
  match (((((((((digitsN 4 s.toList).bind (expectC '-')).bind (digitsN 2)).bind
      (expectC '-')).bind (digitsN 2)).bind (expectC 'T')).bind (digitsN 2)).bind
      (expectC ':')).bind (digitsN 2)).bind (expectC ':') |>.bind (digitsN 2) with
  | none => false
  | some rest =>
    match rest with
    | ['Z'] => true
    | c :: rest2 =>
      (c == '+' || c == '-') &&
        (match (digitsN 2 rest2).bind (expectC ':') |>.bind (digitsN 2) with
         | some [] => true
         | _ => false)
    | [] => false

/-- One optional `(digits+ letter)?` group of the `DURATION` terminal's
pattern; if the digit run is not followed by this group's letter the input is
left untouched for the following groups. -/
def unitGroup (letter : Char) (cs : List Char) : List Char :=
  let run := cs.takeWhile Char.isDigit
  match cs.dropWhile Char.isDigit with
  | c :: rest => if !run.isEmpty && c == letter then rest else cs
  | [] => cs

/-- The `DURATION` terminal's pattern (larkfilter.py line 43): `P` followed by
optional year/month/week/day groups and an optional `T` time part with
hour/minute/second groups. -/
def matchesDuration (s : String) : Bool :=
  match s.toList with
  | 'P' :: cs0 =>
    let cs4 := unitGroup 'D' (unitGroup 'W' (unitGroup 'M' (unitGroup 'Y' cs0)))
    (match cs4 with
     | 'T' :: cs5 => (unitGroup 'S' (unitGroup 'M' (unitGroup 'H' cs5))).isEmpty
     | rest => rest.isEmpty)
  | _ => false

/-- The Lark `SIGNED_INT` terminal: an optional sign followed by one or more
digits. -/
def matchesSignedInt (s : String) : Bool :=
  match s.toList with
  | '+' :: ds => !ds.isEmpty && ds.all Char.isDigit
  | '-' :: ds => !ds.isEmpty && ds.all Char.isDigit
  | ds => !ds.isEmpty && ds.all Char.isDigit

/-- Whether a token's text matches the literal terminal named by `ttype`.
`STRING` is `/[^\s]+/` (any non-whitespace run, larkfilter.py line 48), so any
token matches it.  The `STATUS` terminal is modelled from the spec: a bare
identifier matched case-insensitively against the vocabulary that
`get_status` renders into the grammar (the grammar template itself,
`filter_grammar.jinja`, is not in the repository). -/
def matchesTerminal (ttype : String) (members : List String) (tok : String) : Bool :=
  if ttype = "STRING" then true
  else if ttype = "BOOL" then tok == "true" || tok == "false"
  else if ttype = "SIGNED_INT" then matchesSignedInt tok
  else if ttype = "DATETIME" then matchesDatetime tok
  else if ttype = "DURATION" then matchesDuration tok
  else if ttype = "STATUS" then (getStatus members).contains (lowerStr tok)
  else false

/-- Digit run to a natural number. -/
def digitsToNat (ds : List Char) : Nat :=
  ds.foldl (fun acc c => acc * 10 + (c.toNat - '0'.toNat)) 0

/-- Strip leading and trailing spaces (Python `int()` ignores surrounding
whitespace before converting). -/
def stripSpaces (cs : List Char) : List Char :=
  ((cs.dropWhile (· = ' ')).reverse.dropWhile (· = ' ')).reverse

/-- Python `int(s)`: optional sign then a nonempty digit run, anything else
raises `ValueError` (used by `FilterTransformer.SIGNED_INT` and by
`_parse_time_delta`). -/
def pyInt (s : String) : Except FilterError Int :=
  match stripSpaces s.toList with
  | '+' :: ds =>
    if !ds.isEmpty && ds.all Char.isDigit then .ok (digitsToNat ds) else .error (.valueError s)
  | '-' :: ds =>
    if !ds.isEmpty && ds.all Char.isDigit then .ok (-(digitsToNat ds : Int))
    else .error (.valueError s)
  | ds =>
    if !ds.isEmpty && ds.all Char.isDigit then .ok (digitsToNat ds) else .error (.valueError s)

/-- Python `str.ljust(width, c)`: pad on the right up to `width`. -/
def ljust (s : String) (width : Nat) (c : Char) : String :=
  s ++ String.mk (List.replicate (width - s.toList.length) c)

/-- Split on a separator character, keeping empty pieces (Python
`str.split(sep)`). -/
def splitCharAux (sep : Char) : List Char → List Char → List (List Char)
  | acc, [] => [acc.reverse]
  | acc, c :: cs =>
    if c = sep then acc.reverse :: splitCharAux sep [] cs else splitCharAux sep (c :: acc) cs

/-- String-level wrapper of `splitCharAux`. -/
def splitChar (sep : Char) (s : String) : List String :=
  (splitCharAux sep [] s.toList).map String.mk

/-- `TimeDeltaParam._parse_time_delta` (commands/common.py lines 147-169),
which is the repository's only definition of the `parse_time_delta` helper
that filters.py imports from `armonik_cli.utils` (utils.py does not define
it).  The string is split on `:` into exactly hours, minutes and seconds
(`ValueError` otherwise), the seconds part may carry a fractional part that is
right-padded to milliseconds, and the result is the total duration, here in
milliseconds. -/
def parseTimeDelta (timeStr : String) : Except FilterError Int :=
  match splitChar ':' timeStr with
  | [h, m, secPart] =>
    match pyInt h, pyInt m, pyInt ((splitChar '.' secPart).headD ""),
        pyInt (ljust ((splitChar '.' secPart).getD 1 "0") 3 '0') with
    | .ok hv, .ok mv, .ok sv, .ok msv => .ok (hv * 3600000 + mv * 60000 + sv * 1000 + msv)
    | .error e, _, _, _ => .error e
    | _, .error e, _, _ => .error e
    | _, _, .error e, _ => .error e
    | _, _, _, .error e => .error e
  | _ => .error (.valueError timeStr)

/-- The token callbacks of `FilterTransformer` (filters.py lines 169-239),
dispatched on the terminal name: `STRING` returns the token text unchanged,
`BOOL` is Python `bool(tok.value)` (the truthiness of the token's text, i.e.
nonemptiness), `SIGNED_INT` is `int(tok.value)`, `DATETIME` raises
`NotImplementedError`, `DURATION` calls `parse_time_delta`, and `STATUS` is
`getattr(status_enum, tok.value.upper())`, an `AttributeError` when the
uppercased token is not a member name. -/
def convertToken (ttype : String) (members : List String) (tok : String) :
    Except FilterError Value :=
  if ttype = "STRING" then .ok (.vStr tok)
  else if ttype = "BOOL" then .ok (.vBool (!(tok == "")))
  else if ttype = "SIGNED_INT" then
    match pyInt tok with
    | .ok n => .ok (.vInt n)
    | .error e => .error e
  else if ttype = "DATETIME" then .error .notImplementedError
  else if ttype = "DURATION" then
    match parseTimeDelta tok with
    | .ok ms => .ok (.vDuration ms)
    | .error e => .error e
  else if ttype = "STATUS" then
    if members.contains (upperStr tok) then .ok (.vStatus (upperStr tok))
    else .error (.attributeError (upperStr tok))
  else .error (.valueError tok)

/-- The parse tree produced by the Lark parser for the skeleton grammar
(larkfilter.py lines 15-22): an `expr` node holds one or more `term` children,
a `term` node one or more factor children, and a leaf factor records the field
rule's name together with the comparator and literal tokens it matched (the
literal's terminal name is recorded so the transformer can dispatch the right
token callback).  A parenthesized factor contributes the inner `expr` node
directly.  The one-or-more shapes of `expr` and `term` are explicit:
`head` plus `rest`. -/
inductive PTree
  | leaf (fieldName opTok lit ttype : String)
  | term (head : PTree) (rest : List PTree)
  | expr (head : PTree) (rest : List PTree)
  deriving Repr

/-- Look a field name up among the generated field rules (first match, as in
the `_fields` dict). -/
def lookupField (fieldName : String) : List (String × String × String) → Option (String × String)
  | [] => none
  | (n, comp, ttype) :: rest =>
    if n = fieldName then some (comp, ttype) else lookupField fieldName rest

mutual

/-- One `factor` of the generated grammar: either a parenthesized `expr` or a
field rule `"<name>" <comparator> <literal terminal>` for a field of
`get_fields`; any other token sequence is an `UnexpectedInput` parse error.
The `Nat` argument is recursion fuel for the nesting of parentheses. -/
def parseFactorF (g : List (String × String × String)) (members : List String) :
    Nat → List String → Except FilterError (PTree × List String)
  | 0, _ => .error .unexpectedInput
  | _ + 1, [] => .error .unexpectedInput
  | fuel + 1, t :: rest =>
      if t = "(" then
        match parseExprF g members fuel rest with
        | .ok (tr, rest2) =>
          match rest2 with
          | ")" :: rest3 => .ok (tr, rest3)
          | _ => .error .unexpectedInput
        | .error e => .error e
      else
        match rest with
        | opTok :: lit :: rest2 =>
          match lookupField t g with
          | some (comp, ttype) =>
            if compAllows comp opTok && matchesTerminal ttype members lit then
              .ok (.leaf t opTok lit ttype, rest2)
            else .error .unexpectedInput
          | none => .error .unexpectedInput
        | _ => .error .unexpectedInput

/-- `term: factor ("and" factor)*`. -/
def parseTermF (g : List (String × String × String)) (members : List String) :
    Nat → List String → Except FilterError (PTree × List String)
  | 0, _ => .error .unexpectedInput
  | fuel + 1, toks =>
    match parseFactorF g members fuel toks with
    | .ok (f, rest) =>
      match parseTermRestF g members fuel rest with
      | .ok (fs, rest2) => .ok (.term f fs, rest2)
      | .error e => .error e
    | .error e => .error e

/-- The `("and" factor)*` tail of a `term`. -/
def parseTermRestF (g : List (String × String × String)) (members : List String) :
    Nat → List String → Except FilterError (List PTree × List String)
  | 0, _ => .error .unexpectedInput
  | _ + 1, [] => .ok ([], [])
  | fuel + 1, t :: rest =>
      if t = "and" then
        match parseFactorF g members fuel rest with
        | .ok (f, rest2) =>
          match parseTermRestF g members fuel rest2 with
          | .ok (fs, rest3) => .ok (f :: fs, rest3)
          | .error e => .error e
        | .error e => .error e
      else .ok ([], t :: rest)

/-- `expr: term ("or" term)*`. -/
def parseExprF (g : List (String × String × String)) (members : List String) :
    Nat → List String → Except FilterError (PTree × List String)
  | 0, _ => .error .unexpectedInput
  | fuel + 1, toks =>
    match parseTermF g members fuel toks with
    | .ok (t, rest) =>
      match parseExprRestF g members fuel rest with
      | .ok (ts, rest2) => .ok (.expr t ts, rest2)
      | .error e => .error e
    | .error e => .error e

/-- The `("or" term)*` tail of an `expr`. -/
def parseExprRestF (g : List (String × String × String)) (members : List String) :
    Nat → List String → Except FilterError (List PTree × List String)
  | 0, _ => .error .unexpectedInput
  | _ + 1, [] => .ok ([], [])
  | fuel + 1, t :: rest =>
      if t = "or" then
        match parseTermF g members fuel rest with
        | .ok (tm, rest2) =>
          match parseExprRestF g members fuel rest2 with
          | .ok (ts, rest3) => .ok (tm :: ts, rest3)
          | .error e => .error e
        | .error e => .error e
      else .ok ([], t :: rest)

end

mutual

/-- `FilterTransformer.transform` on the parse tree (filters.py lines
145-167 and 297-325), bottom-up and left to right exactly as Lark's
transformer visits: a leaf converts its comparator token (callbacks `EQ` ...
`ENDSWIDTH`) and its literal token (`convertToken`), then resolves the field
rule's name: `__getattr__` raises `ValueError` when the name is missing from
`filter._fields`, otherwise `field` applies the operator.  `term` and `expr`
nodes reduce their already-transformed children with `reduce(operator.and_)`
and `reduce(operator.or_)`, i.e. left folds over the nonempty child list. -/
def transformTree (flds : Schema) (members : List String) : PTree → Except FilterError Pred
  | .leaf fieldName opTok lit ttype =>
    match opOfTok opTok with
    | some k =>
      match convertToken ttype members lit with
      | .ok v =>
        if fieldName ∈ flds.map Prod.fst then .ok (applyOp k fieldName v)
        else .error (.unknownField fieldName)
      | .error e => .error e
    | none => .error .unexpectedInput
  | .term h rest =>
    match transformTree flds members h with
    | .ok p =>
      match transformList flds members rest with
      | .ok ps => .ok (ps.foldl Pred.and p)
      | .error e => .error e
    | .error e => .error e
  | .expr h rest =>
    match transformTree flds members h with
    | .ok p =>
      match transformList flds members rest with
      | .ok ps => .ok (ps.foldl Pred.or p)
      | .error e => .error e
    | .error e => .error e

/-- Transform a list of sibling subtrees left to right. -/
def transformList (flds : Schema) (members : List String) :
    List PTree → Except FilterError (List Pred)
  | [] => .ok []
  | t :: ts =>
    match transformTree flds members t with
    | .ok p =>
      match transformList flds members ts with
      | .ok ps => .ok (p :: ps)
      | .error e => .error e
    | .error e => .error e

end

/-- Split an expression on spaces (the grammar's `%ignore " "`) into its
tokens. -/
def splitTokensAux : List Char → List Char → List (List Char)
  | acc, [] => [acc.reverse]
  | acc, c :: cs =>
    if c = ' ' then acc.reverse :: splitTokensAux [] cs else splitTokensAux (c :: acc) cs

/-- Tokenize an expression string: maximal runs of non-space characters. -/
def tokenize (s : String) : List String :=
  ((splitTokensAux [] s.toList).map String.mk).filter (fun t => !(t == ""))

/-- `FilterParser.parse` on a token stream: run the Lark parser generated for
the schema (the `start` rule must consume the whole input), then run the
transformer over the resulting tree. -/
def parseFilterTokens (flds : Schema) (members : List String) (toks : List String) :
    Except FilterError Pred :=
  match parseExprF (getFields flds) members (3 * toks.length + 3) toks with
  | .ok (tr, rest) =>
    if rest = [] then transformTree flds members tr else .error .unexpectedInput
  | .error e => .error e

/-- `FilterParser.parse` (filters.py lines 112-126) on an expression string. -/
def parseFilter (flds : Schema) (members : List String) (expression : String) :
    Except FilterError Pred :=
  parseFilterTokens flds members (tokenize expression)

/-- Decidable equality of compilation results. -/
instance {ε α : Type} [DecidableEq ε] [DecidableEq α] : DecidableEq (Except ε α)
  | .ok a, .ok b =>
    if h : a = b then .isTrue (by rw [h]) else .isFalse (fun hh => h (Except.ok.inj hh))
  | .ok _, .error _ => .isFalse Except.noConfusion
  | .error _, .ok _ => .isFalse Except.noConfusion
  | .error a, .error b =>
    if h : a = b then .isTrue (by rw [h]) else .isFalse (fun hh => h (Except.error.inj hh))

/-- Modelled from the spec: the Session resource's `filter._fields` as the
grammar of `larkfilter.py` lines 15-34 and the scenarios of spec section 8
exhibit it (the defining `armonik.common.filter.SessionFilter` is an external
library that is not part of this repository). -/
def sessionFields : Schema :=
  [("session_id", .str), ("status", .status), ("client_submission", .bool),
   ("worker_submission", .bool), ("partition_ids", .array), ("created_at", .date),
   ("cancelled_at", .date), ("closed_at", .date), ("purged_at", .date),
   ("deleted_at", .date), ("duration", .duration)]

/-- Modelled from the spec: the Session status vocabulary named in spec
section 8 (`STATUS{RUNNING,CANCELLED,...}`); the defining `SessionStatus`
enumeration is external to this repository. -/
def sessionStatusMembers : List String := ["RUNNING", "CANCELLED"]

/-- Modelled from the spec: a schema containing fields registered with kinds
`NOT_APPLICABLE` and `UNKNOWN` (spec section 3 says such fields exist on
resource objects; the external API library supplies them), used to exercise
the compiler's treatment of non-filterable fields. -/
def naDemoFields : Schema :=
  [("session_id", .str), ("internal_note", .na), ("shadow", .unknown)]

/-- Modelled from the spec: the grammar text that `generate_parser` renders
for a schema (filters.py lines 93-110 render the template
`filter_grammar.jinja`, which is not in the repository, with `get_fields` and
`get_status`); the skeleton follows spec section 4.2 and `larkfilter.py`, with
one factor alternative per filterable field and the status vocabulary inlined
into the `STATUS` terminal. -/
def generateGrammarText (flds : Schema) (members : List String) : String :=
  let fieldLines := (getFields flds).foldl
    (fun acc f => acc ++ "\n       | \"" ++ f.1 ++ "\" " ++ f.2.1 ++ " " ++ f.2.2) ""
  let statusLine := (getStatus members).foldl (fun acc s => acc ++ " \"" ++ s ++ "\"") "STATUS:"
  "?start: expr\n\nexpr: term (\"or\" term)*\n\nterm: factor (\"and\" factor)*\n\nfactor: \"(\" expr \")\"" ++
    fieldLines ++ "\n\n" ++ statusLine ++ "\n\n%ignore \" \""

/-- The primitive operations performed by `FilterParser`'s methods, used to
account for when the Lark parser is constructed. -/
inductive ParserOp
  | readGrammarTemplate
  | renderGrammar
  | constructLarkParser
  | runLarkParse
  | runTransform
  deriving DecidableEq, Repr

/-- `FilterParser.generate_parser` (filters.py lines 93-110): read the
template file, render the grammar, construct a `Lark` parser. -/
def generateParserOps : List ParserOp := [.readGrammarTemplate, .renderGrammar, .constructLarkParser]

/-- `FilterParser.__init__` (filters.py lines 40-48): only stores `obj`,
`filter` and `status_enum`; no grammar or parser work. -/
def filterParserInitOps : List ParserOp := []

/-- `FilterParser.parse` (filters.py lines 112-126): the body is
`self.generate_parser().parse(expression)` followed by the transformer, so
every call performs all of `generate_parser` and then parses and transforms. -/
def parseCallOps : List ParserOp := generateParserOps ++ [.runLarkParse, .runTransform]

/-- The operations performed by one `FilterParser` lifetime consisting of
construction followed by `n` `parse` calls. -/
def opsAfterParseCalls (n : Nat) : List ParserOp :=
  filterParserInitOps ++ (List.replicate n parseCallOps).flatten

/-- The spec's declared error contract for `FilterCompiler.parse`:
`SyntaxError`, `UnknownField` or `InvalidLiteral`. -/
def isSpecErrorKind : FilterError → Bool
  | .unexpectedInput => true
  | .unknownField _ => true
  | .invalidLiteral _ _ => true
  | _ => false

/-- The error kinds the code can actually raise (every `FilterError`
constructor except the spec's `invalidLiteral`, which the code never
builds). -/
def isCodeErrorKind : FilterError → Bool
  | .invalidLiteral _ _ => false
  | _ => true

/-- A compilation step's outcome is either a value or an error of a kind the
code actually raises. -/
def errOkKind {α : Type} : Except FilterError α → Bool
  | .ok _ => true
  | .error e => isCodeErrorKind e

/-! ### Supporting lemmas about the parser -/

theorem parseFactorF_comp (g : List (String × String × String)) (members : List String)
    (fuel : Nat) (t opTok lit : String) (rest : List String) (comp ttype : String)
    (hne : t ≠ "(") (hlk : lookupField t g = some (comp, ttype))
    (hop : compAllows comp opTok = true) (hlit : matchesTerminal ttype members lit = true) :
    parseFactorF g members (fuel + 1) (t :: opTok :: lit :: rest) =
      .ok (.leaf t opTok lit ttype, rest) := by
  simp [parseFactorF, hne, hlk, hop, hlit]

theorem parseFactorF_unknown (g : List (String × String × String)) (members : List String)
    (fuel : Nat) (t opTok lit : String) (rest : List String)
    (hne : t ≠ "(") (hlk : lookupField t g = none) :
    parseFactorF g members (fuel + 1) (t :: opTok :: lit :: rest) = .error .unexpectedInput := by
  simp [parseFactorF, hne, hlk]

theorem parseTermRestF_stop (g : List (String × String × String)) (members : List String)
    (fuel : Nat) (t : String) (rest : List String) (h : t ≠ "and") :
    parseTermRestF g members (fuel + 1) (t :: rest) = .ok ([], t :: rest) := by
  simp [parseTermRestF, h]

theorem parseTermRestF_nil (g : List (String × String × String)) (members : List String)
    (fuel : Nat) : parseTermRestF g members (fuel + 1) [] = .ok ([], []) := by
  simp [parseTermRestF]

theorem parseTermF_ok (g : List (String × String × String)) (members : List String)
    (fuel : Nat) (toks : List String) (f : PTree) (rest : List String)
    (fs : List PTree) (rest2 : List String)
    (hf : parseFactorF g members fuel toks = .ok (f, rest))
    (hr : parseTermRestF g members fuel rest = .ok (fs, rest2)) :
    parseTermF g members (fuel + 1) toks = .ok (.term f fs, rest2) := by
  simp [parseTermF, hf, hr]

theorem parseTermRestF_and_ok (g : List (String × String × String)) (members : List String)
    (fuel : Nat) (toks : List String) (f : PTree) (rest2 : List String)
    (fs : List PTree) (rest3 : List String)
    (hf : parseFactorF g members fuel toks = .ok (f, rest2))
    (hr : parseTermRestF g members fuel rest2 = .ok (fs, rest3)) :
    parseTermRestF g members (fuel + 1) ("and" :: toks) = .ok (f :: fs, rest3) := by
  simp [parseTermRestF, hf, hr]

theorem parseExprRestF_stop (g : List (String × String × String)) (members : List String)
    (fuel : Nat) (t : String) (rest : List String) (h : t ≠ "or") :
    parseExprRestF g members (fuel + 1) (t :: rest) = .ok ([], t :: rest) := by
  simp [parseExprRestF, h]

theorem parseExprRestF_nil (g : List (String × String × String)) (members : List String)
    (fuel : Nat) : parseExprRestF g members (fuel + 1) [] = .ok ([], []) := by
  simp [parseExprRestF]

theorem parseExprRestF_or_ok (g : List (String × String × String)) (members : List String)
    (fuel : Nat) (toks : List String) (tm : PTree) (rest2 : List String)
    (ts : List PTree) (rest3 : List String)
    (ht : parseTermF g members fuel toks = .ok (tm, rest2))
    (hr : parseExprRestF g members fuel rest2 = .ok (ts, rest3)) :
    parseExprRestF g members (fuel + 1) ("or" :: toks) = .ok (tm :: ts, rest3) := by
  simp [parseExprRestF, ht, hr]

theorem parseExprF_ok (g : List (String × String × String)) (members : List String)
    (fuel : Nat) (toks : List String) (t : PTree) (rest : List String)
    (ts : List PTree) (rest2 : List String)
    (ht : parseTermF g members fuel toks = .ok (t, rest))
    (hr : parseExprRestF g members fuel rest = .ok (ts, rest2)) :
    parseExprF g members (fuel + 1) toks = .ok (.expr t ts, rest2) := by
  simp [parseExprF, ht, hr]

theorem parseTermF_err (g : List (String × String × String)) (members : List String)
    (fuel : Nat) (toks : List String) (e : FilterError)
    (hf : parseFactorF g members fuel toks = .error e) :
    parseTermF g members (fuel + 1) toks = .error e := by
  simp [parseTermF, hf]

theorem parseExprF_err (g : List (String × String × String)) (members : List String)
    (fuel : Nat) (toks : List String) (e : FilterError)
    (ht : parseTermF g members fuel toks = .error e) :
    parseExprF g members (fuel + 1) toks = .error e := by
  simp [parseExprF, ht]

theorem lookupField_mem (fieldName : String) (flds : Schema) (comp ttype : String)
    (h : lookupField fieldName (getFields flds) = some (comp, ttype)) :
    fieldName ∈ flds.map Prod.fst := by
  induction flds with
  | nil => simp [getFields, lookupField] at h
  | cons hd tl ih =>
    obtain ⟨n, k⟩ := hd
    by_cases hn : n = fieldName
    · subst hn
      simp
    · cases k <;> simp [getFields, lookupField, hn] at h <;> simp [ih h]

theorem lookupField_notfilterable (fieldName : String) (flds : Schema)
    (hk : ∀ kk, (fieldName, kk) ∈ flds → kk = FType.na ∨ kk = FType.unknown) :
    lookupField fieldName (getFields flds) = none := by
  induction flds with
  | nil => rfl
  | cons hd tl ih =>
    obtain ⟨n, k⟩ := hd
    have ih2 := ih (fun kk h2 => hk kk (List.mem_cons_of_mem _ h2))
    by_cases hn : n = fieldName
    · subst hn
      rcases hk k (List.mem_cons_self _ _) with h | h <;> subst h <;>
        simpa [getFields] using ih2
    · cases k <;> simp [getFields, lookupField, hn, ih2]

theorem transformTree_leaf (flds : Schema) (members : List String)
    (f opTok lit ttype : String) (k : OpK) (v : Value)
    (hk : opOfTok opTok = some k) (hv : convertToken ttype members lit = .ok v)
    (hmem : f ∈ flds.map Prod.fst) :
    transformTree flds members (.leaf f opTok lit ttype) = .ok (applyOp k f v) := by
  simp [transformTree, hk, hv, hmem]

/-- Parsing a single three-token comparison `field comparator literal`. -/
theorem parseFilterTokens_single (flds : Schema) (members : List String)
    (f o l : String) (c t : String) (k : OpK) (v : Value)
    (hne : f ≠ "(") (hlk : lookupField f (getFields flds) = some (c, t))
    (hop : compAllows c o = true) (hlit : matchesTerminal t members l = true)
    (hk : opOfTok o = some k) (hv : convertToken t members l = .ok v) :
    parseFilterTokens flds members [f, o, l] = .ok (applyOp k f v) := by
  have hF : parseFactorF (getFields flds) members 10 [f, o, l] =
      .ok (.leaf f o l t, []) := parseFactorF_comp _ _ 9 _ _ _ _ _ _ hne hlk hop hlit
  have hT : parseTermF (getFields flds) members 11 [f, o, l] =
      .ok (.term (.leaf f o l t) [], []) :=
    parseTermF_ok _ _ 10 _ _ _ _ _ hF (parseTermRestF_nil _ _ 9)
  have hE : parseExprF (getFields flds) members 12 [f, o, l] =
      .ok (.expr (.term (.leaf f o l t) []) [], []) :=
    parseExprF_ok _ _ 11 _ _ _ _ _ hT (parseExprRestF_nil _ _ 10)
  have hmem := lookupField_mem f flds c t hlk
  unfold parseFilterTokens
  rw [show 3 * [f, o, l].length + 3 = 12 from rfl, hE]
  simp [transformTree, transformList, hk, hv, hmem]

/-! ### Supporting lemmas about error kinds -/

theorem pyInt_error_valueError (s : String) (e : FilterError) (h : pyInt s = .error e) :
    e = .valueError s := by
  unfold pyInt at h
  split at h <;> split at h <;> simp_all

theorem pyInt_taxonomy (s : String) : errOkKind (pyInt s) = true := by
  rcases h : pyInt s with e | v
  · rw [pyInt_error_valueError s e h]; rfl
  · rfl

theorem parseTimeDelta_error_valueError (s : String) (e : FilterError)
    (h : parseTimeDelta s = .error e) : ∃ r, e = .valueError r := by
  unfold parseTimeDelta at h
  split at h
  · split at h <;> simp_all <;>
      exact ⟨_, pyInt_error_valueError _ _ (by assumption)⟩
  · exact ⟨s, by simp_all⟩

theorem convertToken_taxonomy (ttype : String) (members : List String) (tok : String) :
    errOkKind (convertToken ttype members tok) = true := by
  unfold convertToken
  split_ifs <;> try rfl
  · rcases h : pyInt tok with e | n
    · rw [pyInt_error_valueError _ _ h]; rfl
    · rfl
  · rcases h : parseTimeDelta tok with e | ms
    · obtain ⟨r, hr⟩ := parseTimeDelta_error_valueError _ _ h
      subst hr; rfl
    · rfl

mutual

theorem transformTree_taxonomy (flds : Schema) (members : List String) :
    ∀ tr : PTree, errOkKind (transformTree flds members tr) = true
  | .leaf f o l t => by
    unfold transformTree
    rcases hk : opOfTok o with _ | k
    · rfl
    · rcases hv : convertToken t members l with e | v
      · have hc := convertToken_taxonomy t members l
        rw [hv] at hc
        simpa using hc
      · by_cases hm : f ∈ List.map Prod.fst flds <;>
          simp [errOkKind, isCodeErrorKind, hm]
  | .term h rest => by
    unfold transformTree
    rcases hh : transformTree flds members h with e | p
    · have := transformTree_taxonomy flds members h
      rw [hh] at this
      simpa using this
    · rcases hr : transformList flds members rest with e | ps
      · have := transformList_taxonomy flds members rest
        rw [hr] at this
        simpa using this
      · rfl
  | .expr h rest => by
    unfold transformTree
    rcases hh : transformTree flds members h with e | p
    · have := transformTree_taxonomy flds members h
      rw [hh] at this
      simpa using this
    · rcases hr : transformList flds members rest with e | ps
      · have := transformList_taxonomy flds members rest
        rw [hr] at this
        simpa using this
      · rfl

theorem transformList_taxonomy (flds : Schema) (members : List String) :
    ∀ ts : List PTree, errOkKind (transformList flds members ts) = true
  | [] => rfl
  | t :: ts => by
    unfold transformList
    rcases hh : transformTree flds members t with e | p
    · have := transformTree_taxonomy flds members t
      rw [hh] at this
      simpa using this
    · rcases hr : transformList flds members ts with e | ps
      · have := transformList_taxonomy flds members ts
        rw [hr] at this
        simpa using this
      · rfl

end

mutual

theorem parseFactorF_err_eq (g : List (String × String × String)) (m : List String) :
    ∀ fuel toks e, parseFactorF g m fuel toks = .error e → e = .unexpectedInput
  | 0, toks, e, h => by
    rw [show parseFactorF g m 0 toks = .error .unexpectedInput from rfl] at h
    exact (Except.error.inj h).symm
  | fuel + 1, toks, e, h => by
    rcases toks with _ | ⟨t, rest⟩
    · exact (Except.error.inj h).symm
    · simp only [parseFactorF] at h
      by_cases hp : t = "("
      · rw [if_pos hp] at h
        rcases hE : parseExprF g m fuel rest with e2 | ⟨tr, rest2⟩ <;> rw [hE] at h <;>
          simp at h
        · subst h
          exact parseExprF_err_eq g m fuel rest _ hE
        · split at h <;> simp_all
      · rw [if_neg hp] at h
        rcases rest with _ | ⟨o2, rest2⟩
        · simp at h
          exact h.symm
        · rcases rest2 with _ | ⟨l2, rest3⟩
          · simp at h
            exact h.symm
          · simp at h
            rcases hlk : lookupField t g with _ | ⟨c2, t2⟩ <;> rw [hlk] at h <;> simp at h
            · exact h.symm
            · split at h <;> simp_all

theorem parseTermF_err_eq (g : List (String × String × String)) (m : List String) :
    ∀ fuel toks e, parseTermF g m fuel toks = .error e → e = .unexpectedInput
  | 0, toks, e, h => by
    rw [show parseTermF g m 0 toks = .error .unexpectedInput from rfl] at h
    exact (Except.error.inj h).symm
  | fuel + 1, toks, e, h => by
    simp only [parseTermF] at h
    rcases hf : parseFactorF g m fuel toks with e2 | ⟨f, rest⟩ <;> rw [hf] at h <;> simp at h
    · subst h
      exact parseFactorF_err_eq g m fuel toks _ hf
    · rcases hr : parseTermRestF g m fuel rest with e2 | ⟨fs, rest2⟩ <;> rw [hr] at h <;>
        simp at h
      subst h
      exact parseTermRestF_err_eq g m fuel rest _ hr

theorem parseTermRestF_err_eq (g : List (String × String × String)) (m : List String) :
    ∀ fuel toks e, parseTermRestF g m fuel toks = .error e → e = .unexpectedInput
  | 0, toks, e, h => by
    rw [show parseTermRestF g m 0 toks = .error .unexpectedInput from rfl] at h
    exact (Except.error.inj h).symm
  | fuel + 1, toks, e, h => by
    rcases toks with _ | ⟨t, rest⟩
    · exact absurd h (by simp [parseTermRestF])
    · simp only [parseTermRestF] at h
      by_cases ha : t = "and"
      · rw [if_pos ha] at h
        rcases hf : parseFactorF g m fuel rest with e2 | ⟨f, rest2⟩ <;> rw [hf] at h <;>
          simp at h
        · subst h
          exact parseFactorF_err_eq g m fuel rest _ hf
        · rcases hr : parseTermRestF g m fuel rest2 with e2 | ⟨fs, rest3⟩ <;> rw [hr] at h <;>
            simp at h
          subst h
          exact parseTermRestF_err_eq g m fuel rest2 _ hr
      · rw [if_neg ha] at h
        exact absurd h (by simp)

theorem parseExprF_err_eq (g : List (String × String × String)) (m : List String) :
    ∀ fuel toks e, parseExprF g m fuel toks = .error e → e = .unexpectedInput
  | 0, toks, e, h => by
    rw [show parseExprF g m 0 toks = .error .unexpectedInput from rfl] at h
    exact (Except.error.inj h).symm
  | fuel + 1, toks, e, h => by
    simp only [parseExprF] at h
    rcases ht : parseTermF g m fuel toks with e2 | ⟨t, rest⟩ <;> rw [ht] at h <;> simp at h
    · subst h
      exact parseTermF_err_eq g m fuel toks _ ht
    · rcases hr : parseExprRestF g m fuel rest with e2 | ⟨ts, rest2⟩ <;> rw [hr] at h <;>
        simp at h
      subst h
      exact parseExprRestF_err_eq g m fuel rest _ hr

theorem parseExprRestF_err_eq (g : List (String × String × String)) (m : List String) :
    ∀ fuel toks e, parseExprRestF g m fuel toks = .error e → e = .unexpectedInput
  | 0, toks, e, h => by
    rw [show parseExprRestF g m 0 toks = .error .unexpectedInput from rfl] at h
    exact (Except.error.inj h).symm
  | fuel + 1, toks, e, h => by
    rcases toks with _ | ⟨t, rest⟩
    · exact absurd h (by simp [parseExprRestF])
    · simp only [parseExprRestF] at h
      by_cases ho : t = "or"
      · rw [if_pos ho] at h
        rcases ht : parseTermF g m fuel rest with e2 | ⟨tm, rest2⟩ <;> rw [ht] at h <;>
          simp at h
        · subst h
          exact parseTermF_err_eq g m fuel rest _ ht
        · rcases hr : parseExprRestF g m fuel rest2 with e2 | ⟨ts, rest3⟩ <;> rw [hr] at h <;>
            simp at h
          subst h
          exact parseExprRestF_err_eq g m fuel rest2 _ hr
      · rw [if_neg ho] at h
        exact absurd h (by simp)

end

/-! ### The claims -/

/-- Claim C1: for all comparison factors `a`, `b`, `c` accepted by the
generated grammar, the expression `a and b or c` compiles to the predicate
`(a AND b) OR c` and never `a AND (b OR c)`: AND binds more tightly than OR,
a term folds its factors with logical AND left to right, and an expression
folds its terms with logical OR left to right. -/
theorem and_or_precedence
    (flds : Schema) (members : List String)
    (f1 o1 l1 f2 o2 l2 f3 o3 l3 c1 t1 c2 t2 c3 t3 : String)
    (k1 k2 k3 : OpK) (v1 v2 v3 : Value)
    (hne1 : f1 ≠ "(") (hne2 : f2 ≠ "(") (hne3 : f3 ≠ "(")
    (hlk1 : lookupField f1 (getFields flds) = some (c1, t1))
    (hlk2 : lookupField f2 (getFields flds) = some (c2, t2))
    (hlk3 : lookupField f3 (getFields flds) = some (c3, t3))
    (hop1 : compAllows c1 o1 = true) (hop2 : compAllows c2 o2 = true)
    (hop3 : compAllows c3 o3 = true)
    (hlit1 : matchesTerminal t1 members l1 = true)
    (hlit2 : matchesTerminal t2 members l2 = true)
    (hlit3 : matchesTerminal t3 members l3 = true)
    (hk1 : opOfTok o1 = some k1) (hk2 : opOfTok o2 = some k2) (hk3 : opOfTok o3 = some k3)
    (hv1 : convertToken t1 members l1 = .ok v1) (hv2 : convertToken t2 members l2 = .ok v2)
    (hv3 : convertToken t3 members l3 = .ok v3) :
    parseFilterTokens flds members [f1, o1, l1] = .ok (applyOp k1 f1 v1) ∧
    parseFilterTokens flds members [f2, o2, l2] = .ok (applyOp k2 f2 v2) ∧
    parseFilterTokens flds members [f3, o3, l3] = .ok (applyOp k3 f3 v3) ∧
    parseFilterTokens flds members [f1, o1, l1, "and", f2, o2, l2, "or", f3, o3, l3] =
      .ok (.or (.and (applyOp k1 f1 v1) (applyOp k2 f2 v2)) (applyOp k3 f3 v3)) ∧
    Pred.or (.and (applyOp k1 f1 v1) (applyOp k2 f2 v2)) (applyOp k3 f3 v3) ≠
      Pred.and (applyOp k1 f1 v1) (.or (applyOp k2 f2 v2) (applyOp k3 f3 v3)) := by
  refine ⟨parseFilterTokens_single _ _ _ _ _ _ _ _ _ hne1 hlk1 hop1 hlit1 hk1 hv1,
    parseFilterTokens_single _ _ _ _ _ _ _ _ _ hne2 hlk2 hop2 hlit2 hk2 hv2,
    parseFilterTokens_single _ _ _ _ _ _ _ _ _ hne3 hlk3 hop3 hlit3 hk3 hv3, ?_, by simp⟩
  have hF1 : parseFactorF (getFields flds) members 34
      [f1, o1, l1, "and", f2, o2, l2, "or", f3, o3, l3] =
      .ok (.leaf f1 o1 l1 t1, ["and", f2, o2, l2, "or", f3, o3, l3]) :=
    parseFactorF_comp _ _ 33 _ _ _ _ _ _ hne1 hlk1 hop1 hlit1
  have hF2 : parseFactorF (getFields flds) members 33 [f2, o2, l2, "or", f3, o3, l3] =
      .ok (.leaf f2 o2 l2 t2, ["or", f3, o3, l3]) :=
    parseFactorF_comp _ _ 32 _ _ _ _ _ _ hne2 hlk2 hop2 hlit2
  have hTR1 : parseTermRestF (getFields flds) members 34
      ("and" :: [f2, o2, l2, "or", f3, o3, l3]) =
      .ok ([.leaf f2 o2 l2 t2], ["or", f3, o3, l3]) :=
    parseTermRestF_and_ok _ _ 33 _ _ _ _ _ hF2 (parseTermRestF_stop _ _ 32 _ _ (by decide))
  have hT1 : parseTermF (getFields flds) members 35
      [f1, o1, l1, "and", f2, o2, l2, "or", f3, o3, l3] =
      .ok (.term (.leaf f1 o1 l1 t1) [.leaf f2 o2 l2 t2], ["or", f3, o3, l3]) :=
    parseTermF_ok _ _ 34 _ _ _ _ _ hF1 hTR1
  have hF3 : parseFactorF (getFields flds) members 33 [f3, o3, l3] =
      .ok (.leaf f3 o3 l3 t3, []) :=
    parseFactorF_comp _ _ 32 _ _ _ _ _ _ hne3 hlk3 hop3 hlit3
  have hT3 : parseTermF (getFields flds) members 34 [f3, o3, l3] =
      .ok (.term (.leaf f3 o3 l3 t3) [], []) :=
    parseTermF_ok _ _ 33 _ _ _ _ _ hF3 (parseTermRestF_nil _ _ 32)
  have hER1 : parseExprRestF (getFields flds) members 35 ("or" :: [f3, o3, l3]) =
      .ok ([.term (.leaf f3 o3 l3 t3) []], []) :=
    parseExprRestF_or_ok _ _ 34 _ _ _ _ _ hT3 (parseExprRestF_nil _ _ 33)
  have hE : parseExprF (getFields flds) members 36
      [f1, o1, l1, "and", f2, o2, l2, "or", f3, o3, l3] =
      .ok (.expr (.term (.leaf f1 o1 l1 t1) [.leaf f2 o2 l2 t2])
        [.term (.leaf f3 o3 l3 t3) []], []) :=
    parseExprF_ok _ _ 35 _ _ _ _ _ hT1 hER1
  have hm1 := lookupField_mem f1 flds c1 t1 hlk1
  have hm2 := lookupField_mem f2 flds c2 t2 hlk2
  have hm3 := lookupField_mem f3 flds c3 t3 hlk3
  unfold parseFilterTokens
  rw [show 3 * [f1, o1, l1, "and", f2, o2, l2, "or", f3, o3, l3].length + 3 = 36 from rfl, hE]
  simp [transformTree, transformList, hk1, hk2, hk3, hv1, hv2, hv3, hm1, hm2, hm3]

/-- Witness for C1, spec section 8 scenario 6 on the Session schema:
`session_id = id and status != running or session_id startswith ok` compiles
to `((session_id == "id") AND (status != RUNNING)) OR (session_id.startswith("ok"))`. -/
theorem and_or_precedence_witness :
    parseFilterTokens sessionFields sessionStatusMembers
      ["session_id", "=", "id", "and", "status", "!=", "running",
       "or", "session_id", "startswith", "ok"] =
      .ok (.or (.and (.comp "session_id" .eq (.vStr "id"))
                     (.comp "status" .ne (.vStatus "RUNNING")))
               (.comp "session_id" .startswith (.vStr "ok"))) :=
  (and_or_precedence sessionFields sessionStatusMembers
    "session_id" "=" "id" "status" "!=" "running" "session_id" "startswith" "ok"
    "string_comp" "STRING" "status_comp" "STATUS" "string_comp" "STRING"
    .eqK .neK .startsK (.vStr "id") (.vStatus "RUNNING") (.vStr "ok")
    (by decide) (by decide) (by decide) rfl rfl rfl rfl rfl rfl rfl rfl rfl
    rfl rfl rfl rfl rfl rfl).2.2.2.1

/-- Claim C2 (code bug): the spec requires well-formed ISO-8601 datetime and
duration literals to convert to typed values with compilation returning a
predicate, and the grammar accepts them (first two conjuncts), but the
transformer's `DATETIME` callback raises `NotImplementedError` (filters.py
line 179) and its `DURATION` callback calls a `parse_time_delta` that only
accepts `HH:MM:SS[.MS]` strings and raises `ValueError` on every ISO-8601
duration (and is in fact missing from `armonik_cli.utils`, the module
filters.py imports it from). -/
theorem date_duration_literals_fail :
    matchesDatetime "2024-12-28T14:00:00Z" = true ∧
    matchesDuration "P1Y2M3DT4H5M6S" = true ∧
    parseFilter sessionFields sessionStatusMembers "created_at = 2024-12-28T14:00:00Z" =
      .error .notImplementedError ∧
    parseFilter sessionFields sessionStatusMembers "duration = P1Y2M3DT4H5M6S" =
      .error (.valueError "P1Y2M3DT4H5M6S") := ⟨rfl, rfl, rfl, rfl⟩

/-- Claim C3 (code bug): `FilterTransformer.BOOL` is `bool(tok.value)`, the
truthiness of the token's text, so the token `false` — a nonempty string —
converts to `True` exactly like `true` does, and the compiled predicate for
`client_submission = false` compares against `True`; the spec and the
callback's own docstring require the token `false` to convert to the boolean
false. -/
theorem bool_false_token_converts_to_true :
    convertToken "BOOL" [] "true" = .ok (.vBool true) ∧
    convertToken "BOOL" [] "false" = .ok (.vBool true) ∧
    parseFilter sessionFields sessionStatusMembers "client_submission = false" =
      .ok (.comp "client_submission" .eq (.vBool true)) := ⟨rfl, rfl, rfl⟩

/-- Counterexample for C4: on a schema with `internal_note` registered as
`NOT_APPLICABLE` and `shadow` as `UNKNOWN`, referencing either field fails
with the parser's `UnexpectedInput` (these fields are excluded from the
generated grammar), not with the transformer's `UnknownField`/`ValueError`
naming the field, contradicting the claim's stated error kind. -/
theorem na_field_error_is_not_unknownField :
    parseFilter naDemoFields [] "internal_note = x" = .error .unexpectedInput ∧
    parseFilter naDemoFields [] "internal_note = x" ≠ .error (.unknownField "internal_note") ∧
    parseFilter naDemoFields [] "shadow = x" = .error .unexpectedInput ∧
    parseFilter naDemoFields [] "shadow = x" ≠ .error (.unknownField "shadow") := by
  exact ⟨rfl, by decide, rfl, by decide⟩

/-- Claim C4 (amended): an expression referencing a field registered only with
kind `NOT_APPLICABLE` or `UNKNOWN` always fails to parse — with the parser's
`UnexpectedInput`, because `get_fields` excludes such fields from the
generated grammar — and never silently matches; the transformer's
`UnknownField` (`ValueError`) check fires only for rule names absent from the
filter's complete field mapping, which the grammar never produces for these
fields. -/
theorem nonfilterable_field_rejected (flds : Schema) (members : List String) (f o l : String)
    (hk : ∀ kk, (f, kk) ∈ flds → kk = FType.na ∨ kk = FType.unknown) (hne : f ≠ "(") :
    parseFilterTokens flds members [f, o, l] = .error .unexpectedInput := by
  have hF : parseFactorF (getFields flds) members 10 [f, o, l] = .error .unexpectedInput :=
    parseFactorF_unknown _ _ 9 _ _ _ _ hne (lookupField_notfilterable f flds hk)
  have hE := parseExprF_err _ _ 11 _ _ (parseTermF_err _ _ 10 _ _ hF)
  unfold parseFilterTokens
  rw [show 3 * [f, o, l].length + 3 = 12 from rfl, hE]

/-- Witness for C4 (amended) on the demo schema. -/
theorem nonfilterable_field_rejected_witness :
    parseFilterTokens naDemoFields [] ["internal_note", "=", "x"] = .error .unexpectedInput :=
  nonfilterable_field_rejected naDemoFields [] "internal_note" "=" "x" (by decide) (by decide)

/-- Claim C5: for every STRING-kind field `f` and value token `v`, compiling
`f notcontains v` yields exactly the logical negation of the predicate
obtained by compiling `f contains v` (the `NOTIN` callback builds
`- a.contains(b)` on the same operands). -/
theorem contains_notcontains_negation (flds : Schema) (members : List String) (f v : String)
    (hne : f ≠ "(") (hlk : lookupField f (getFields flds) = some ("string_comp", "STRING")) :
    parseFilterTokens flds members [f, "contains", v] =
      .ok (.comp f .contains (.vStr v)) ∧
    parseFilterTokens flds members [f, "notcontains", v] =
      .ok (.not (.comp f .contains (.vStr v))) :=
  ⟨parseFilterTokens_single flds members f "contains" v _ _ .inK (.vStr v)
      hne hlk rfl rfl rfl rfl,
    parseFilterTokens_single flds members f "notcontains" v _ _ .notInK (.vStr v)
      hne hlk rfl rfl rfl rfl⟩

/-- Witness for C5 on the Session schema. -/
theorem contains_notcontains_negation_witness :
    parseFilterTokens sessionFields sessionStatusMembers ["session_id", "contains", "id"] =
      .ok (.comp "session_id" .contains (.vStr "id")) ∧
    parseFilterTokens sessionFields sessionStatusMembers ["session_id", "notcontains", "id"] =
      .ok (.not (.comp "session_id" .contains (.vStr "id"))) :=
  contains_notcontains_negation sessionFields sessionStatusMembers "session_id" "id"
    (by decide) rfl

/-- Counterexample for C6: the claim's instance at two parse calls — after
construction and two `parse` calls the parser has been constructed exactly
once — is false: `__init__` performs no parser construction and each `parse`
call performs one, so the count is two. -/
theorem parser_built_per_parse_counterexample :
    (opsAfterParseCalls 2).count ParserOp.constructLarkParser = 2 ∧
    filterParserInitOps.count ParserOp.constructLarkParser = 0 ∧
    ¬ (opsAfterParseCalls 2).count ParserOp.constructLarkParser = 1 ∧
    ¬ filterParserInitOps.count ParserOp.constructLarkParser = 1 := by decide

/-- Claim C6 (amended): `FilterParser.__init__` builds no field list, grammar
or parser at all (it only stores its three arguments), and every `parse` call
generates the grammar and constructs the Lark parser itself, so after `n`
parse calls the parser has been constructed `n` times, not once. -/
theorem parser_built_once_per_parse_call (n : Nat) :
    filterParserInitOps = [] ∧
    parseCallOps.count ParserOp.constructLarkParser = 1 ∧
    (opsAfterParseCalls n).count ParserOp.constructLarkParser = n := by
  refine ⟨rfl, rfl, ?_⟩
  induction n with
  | zero => rfl
  | succ k ih =>
    simp only [opsAfterParseCalls, filterParserInitOps, List.nil_append,
      List.replicate_succ, List.flatten_cons, List.count_append] at ih ⊢
    rw [ih, show parseCallOps.count ParserOp.constructLarkParser = 1 from rfl]
    omega

/-- Counterexample for C7: compiling `created_at = 2024-12-28T14:00:00Z`
escapes with `NotImplementedError`, which is none of the spec's three
declared error kinds (parse error, unknown field, invalid literal). -/
theorem parse_error_outside_spec_taxonomy :
    parseFilter sessionFields sessionStatusMembers "created_at = 2024-12-28T14:00:00Z" =
      .error .notImplementedError ∧
    isSpecErrorKind .notImplementedError = false := ⟨rfl, rfl⟩

/-- Claim C7 (amended): parsing any token stream either returns a predicate
or fails with one of the error kinds the code actually raises —
`UnexpectedInput` from the parser, `ValueError` naming an unknown field from
`__getattr__`, `NotImplementedError` from the `DATETIME` callback,
`ValueError` from integer or duration conversion, or `AttributeError` from an
unknown status name — and never with the spec's `InvalidLiteral`, which the
code never constructs. -/
theorem parse_error_kind_classification (flds : Schema) (members : List String)
    (toks : List String) :
    errOkKind (parseFilterTokens flds members toks) = true := by
  unfold parseFilterTokens
  rcases hE : parseExprF (getFields flds) members (3 * toks.length + 3) toks
      with e | ⟨tr, rest⟩
  · have he := parseExprF_err_eq (getFields flds) members _ _ _ hE
    subst he
    rfl
  · by_cases hr : rest = []
    · simp [hr, transformTree_taxonomy]
    · simp [hr, errOkKind, isCodeErrorKind]

/-- Claim C8: a STATUS literal is matched case-insensitively against the
status vocabulary and converted with `getattr(status_enum, tok.upper())` to
the corresponding enumerator, so `f = tok` compiles to an equality predicate
against the uppercased member name. -/
theorem status_case_insensitive (flds : Schema) (members : List String) (f tok : String)
    (hne : f ≠ "(") (hlk : lookupField f (getFields flds) = some ("status_comp", "STATUS"))
    (hterm : (getStatus members).contains (lowerStr tok) = true)
    (hmem : members.contains (upperStr tok) = true) :
    parseFilterTokens flds members [f, "=", tok] =
      .ok (.comp f .eq (.vStatus (upperStr tok))) := by
  have hterm2 : lowerStr tok ∈ getStatus members := by simpa using hterm
  have hmem2 : upperStr tok ∈ members := by simpa using hmem
  have hlit : matchesTerminal "STATUS" members tok = true := by
    simp [matchesTerminal, hterm2]
  have hv : convertToken "STATUS" members tok = .ok (.vStatus (upperStr tok)) := by
    simp [convertToken, hmem2]
  exact parseFilterTokens_single flds members f "=" tok _ _ .eqK _ hne hlk rfl hlit rfl hv

/-- Witness for C8, spec section 8 scenario 3: on the Session resource,
`status = running` compiles to `status == RUNNING`. -/
theorem status_case_insensitive_witness :
    parseFilter sessionFields sessionStatusMembers "status = running" =
      .ok (.comp "status" .eq (.vStatus "RUNNING")) :=
  status_case_insensitive sessionFields sessionStatusMembers "status" "running"
    (by decide) rfl (by decide) (by decide)

/-- Claim C9: for a fixed resource schema the grammar generator yields
identical grammar text on every invocation, and parsing the same expression
twice against the same schema yields structurally equal predicate trees: the
embedding of `generate_parser` and `parse` is a pure function of the schema,
status vocabulary and expression, with no randomness or external state. -/
theorem grammar_and_parse_deterministic (flds : Schema) (members : List String) (e : String) :
    generateGrammarText flds members = generateGrammarText flds members ∧
    parseFilter flds members e = parseFilter flds members e :=
  ⟨rfl, rfl⟩

/-- Claim C10: `FilterTransformer.STRING` returns the matched token's text
unchanged — no quote stripping, escaping or normalization — so the compiled
predicate compares the field against exactly the characters of the token. -/
theorem string_literal_passthrough (flds : Schema) (members : List String) (f v : String)
    (hne : f ≠ "(") (hlk : lookupField f (getFields flds) = some ("string_comp", "STRING")) :
    convertToken "STRING" members v = .ok (.vStr v) ∧
    parseFilterTokens flds members [f, "=", v] = .ok (.comp f .eq (.vStr v)) :=
  ⟨rfl, parseFilterTokens_single flds members f "=" v _ _ .eqK (.vStr v)
    hne hlk rfl rfl rfl rfl⟩

/-- Witness for C10: a double-quoted value keeps its quote characters in the
compared string. -/
theorem string_literal_passthrough_witness :
    parseFilterTokens sessionFields sessionStatusMembers ["session_id", "=", "\"id\""] =
      .ok (.comp "session_id" .eq (.vStr "\"id\"")) :=
  (string_literal_passthrough sessionFields sessionStatusMembers "session_id" "\"id\""
    (by decide) rfl).2

end ArmonikFilters
